import Mathlib

/-!
Shallow embedding of the debugging allocator in src/pset1/m61.cc.

Modelling conventions:
* Addresses are natural numbers; the C null pointer is the address 0.
  The arena base (the mmap result) is the fixed positive address BASE.
* size_t arithmetic is modelled as Nat arithmetic reduced mod SIZE_MOD
  (2^64) wherever the C computation can wrap; pointer offsets inside the
  8 MiB arena cannot wrap and are kept as plain Nat sums.
* The header store is a list of (address, chunk_header) writes, newest
  first; a read of an address never written yields the all-zero header,
  a deterministic stand-in for uninitialized memory.
* std::map<size_t, std::stack<void*>> free_pool is a key-sorted
  association list; each stack is a list whose head is the stack top.
* std::set<void*> is a duplicate-free list of addresses.
* The diagnostic fields of chunk_header (func, line) are written but
  never read by any operation, so they are omitted from the record.
* m61_free calls exit(EXIT_FAILURE) on the three MEMORY BUG paths; this
  is modelled by the FreeResult.fatal constructor, which carries the
  state as it was at the moment of termination (no mutation happens on
  any fatal path in the source).
* m61_calloc's memset of the returned payload touches only payload
  bytes, which the model does not represent.
-/

/-- Modulus of the 64-bit size_t type on the modelled platform (x86-64). -/
def SIZE_MOD : Nat := 2 ^ 64

/-- alignof(std::max_align_t) on the modelled platform (x86-64 SysV ABI). -/
def MAX_ALIGN : Nat := 16

/-- sizeof(chunk_header) on the modelled platform: size_t (8) + bool plus
padding (8) + const char pointer (8) + int plus padding (8) + void
pointer (8) = 40 bytes. -/
def CHUNK_HEADER_SIZE : Nat := 40

/-- Arena capacity: m61_memory_buffer.size = 8 MiB. -/
def BUFFER_SIZE : Nat := 8 * 2 ^ 20

/-- The arena base address returned by mmap; a fixed positive address. -/
def BASE : Nat := 2 ^ 32

/-- Source line 14: size % alignof(max_align_t) + size, in size_t. -/
def offset_to_next_aligned_size (size : Nat) : Nat :=
  (size % MAX_ALIGN + size) % SIZE_MOD

/-- Source line 19. -/
def is_add_wraparound (sum part : Nat) : Bool :=
  sum < part

/-- Source line 26: can size more bytes be carved at offset pos of a
buffer of buffer_sz bytes? -/
def check_if_available_in_default_buffer (pos buffer_sz size : Nat) : Bool :=
  let total_size := (pos + size) % SIZE_MOD
  if is_add_wraparound total_size pos || is_add_wraparound total_size size then false
  else if total_size > buffer_sz then false
  else true

/-- Unsigned 64-bit subtraction, as C size_t subtraction computes it. -/
def usub (a b : Nat) : Nat :=
  (a % SIZE_MOD + (SIZE_MOD - b % SIZE_MOD)) % SIZE_MOD

/-- offset_to_next_aligned_size(sizeof(chunk_header)) = 48: the distance
from a chunk header to its payload (get_payload_ptr / extract_chunk_header). -/
def ALIGNED_HEADER_SIZE : Nat := offset_to_next_aligned_size CHUNK_HEADER_SIZE

/-- chunk_header from source line 38, minus the two diagnostic fields
(func, line) that no operation ever reads. null next_chunk is 0. -/
structure chunk_header where
  size : Nat
  used : Bool
  next_chunk : Nat
  deriving DecidableEq

/-- Read of the header store: newest write to the address wins; an
address never written reads as the zero pattern. -/
def lookupHeader : List (Nat × chunk_header) → Nat → Option chunk_header
  | [], _ => none
  | (a1, h) :: rest, a => if a = a1 then some h else lookupHeader rest a

def getHeader (hs : List (Nat × chunk_header)) (a : Nat) : chunk_header :=
  (lookupHeader hs a).getD ⟨0, false, 0⟩

/-- Write of the header store (fill_chunk_header at an address). -/
def setHeader (hs : List (Nat × chunk_header)) (a : Nat) (h : chunk_header) :
    List (Nat × chunk_header) :=
  (a, h) :: hs

/-- free_pool[k].push(a): std::map operator[] inserts the key in sorted
position when absent; push puts a on top of the LIFO stack (list head). -/
def poolPush : List (Nat × List Nat) → Nat → Nat → List (Nat × List Nat)
  | [], k, a => [(k, [a])]
  | (k1, st) :: rest, k, a =>
    if k < k1 then (k, [a]) :: (k1, st) :: rest
    else if k = k1 then (k1, a :: st) :: rest
    else (k1, st) :: poolPush rest k a

def poolFind : List (Nat × List Nat) → Nat → Option (List Nat)
  | [], _ => none
  | (k1, st) :: rest, k => if k = k1 then some st else poolFind rest k

/-- The stack stored under key k (empty when the key is absent). -/
def poolLookup (ps : List (Nat × List Nat)) (k : Nat) : List Nat :=
  (poolFind ps k).getD []

/-- Pop the stack stored under key k (free_stack.pop() in place). -/
def poolPopAt : List (Nat × List Nat) → Nat → List (Nat × List Nat)
  | [], _ => []
  | (k1, st) :: rest, k =>
    if k = k1 then (k1, st.tail) :: rest else (k1, st) :: poolPopAt rest k

/-- std::set insert / erase on a duplicate-free address list. -/
def insertSet (s : List Nat) (a : Nat) : List Nat :=
  if a ∈ s then s else a :: s

def eraseSet (s : List Nat) (a : Nat) : List Nat :=
  s.filter (fun x => x ≠ a)

/-- m61_statistics: the counter fields used by m61.cc (declared in
m61.hh, which is not part of src/; the fields and their meanings are
fixed by their uses in m61.cc lines 157-178 and 296-302). -/
structure m61_statistics where
  nactive : Nat
  active_size : Nat
  ntotal : Nat
  total_size : Nat
  nfail : Nat
  fail_size : Nat
  heap_min : Nat
  heap_max : Nat
  deriving DecidableEq

/-- Source line 157. -/
def m61_statistics.update_successful_allocation (st : m61_statistics)
    (ptr requested_sz allocated_sz : Nat) : m61_statistics :=
  { st with
    ntotal := (st.ntotal + 1) % SIZE_MOD
    nactive := (st.nactive + 1) % SIZE_MOD
    total_size := (st.total_size + requested_sz) % SIZE_MOD
    active_size := (st.active_size + requested_sz) % SIZE_MOD
    heap_min := if ptr < st.heap_min then ptr else st.heap_min
    heap_max := if (ptr + allocated_sz) % SIZE_MOD > st.heap_max
                then (ptr + allocated_sz) % SIZE_MOD else st.heap_max }

/-- Source line 170. -/
def m61_statistics.update_failed_allocation (st : m61_statistics) (sz : Nat) :
    m61_statistics :=
  { st with
    nfail := (st.nfail + 1) % SIZE_MOD
    fail_size := (st.fail_size + sz) % SIZE_MOD }

/-- Source line 175 (the ptr argument is unused in the source as well). -/
def m61_statistics.update_free (st : m61_statistics) (_ptr sz : Nat) :
    m61_statistics :=
  { st with
    nactive := usub st.nactive 1
    active_size := usub st.active_size sz }

/-- The global mutable state of m61.cc lines 59-63: the buffer cursor,
the header bytes of the arena, free_pool, current_allocation,
freed_allocations and default_stats. -/
structure AllocState where
  pos : Nat
  headers : List (Nat × chunk_header)
  free_pool : List (Nat × List Nat)
  current_allocation : List Nat
  freed_allocations : List Nat
  stats : m61_statistics
  deriving DecidableEq

/-- Source line 107: rewrite the oversized chunk as a used head of
requested_size plus a new free tail chunk pushed into free_pool. Note
the source computes the head header as extract_chunk_header(ptr), i.e.
ptr - 48, although ptr is already a header address here, and places the
tail header at ptr + requested_size + sizeof(chunk_header) (40, not 48);
both are reproduced as written. -/
def split_current_chunk (s : AllocState) (ptr requested_size extra_memory : Nat) :
    AllocState :=
  let current_chunk_header_addr := ptr - ALIGNED_HEADER_SIZE
  let current_chunk_header := getHeader s.headers current_chunk_header_addr
  let new_ptr := ptr + requested_size + CHUNK_HEADER_SIZE
  let hs1 := setHeader s.headers new_ptr
    ⟨extra_memory, false, current_chunk_header.next_chunk⟩
  let hs2 := setHeader hs1 current_chunk_header_addr
    ⟨requested_size, true, new_ptr⟩
  { s with headers := hs2, free_pool := poolPush s.free_pool extra_memory new_ptr }

/-- Source line 117: extra_memory is computed in size_t and then viewed
as int64_t; it counts as positive exactly when the 64-bit pattern is in
(0, 2^63). -/
def free_extra_memory (s : AllocState) (ptr requested_size available_size : Nat) :
    AllocState :=
  let extra_memory := usub (usub available_size requested_size) (2 * CHUNK_HEADER_SIZE)
  if 0 < extra_memory ∧ extra_memory < 2 ^ 63 then
    split_current_chunk s ptr requested_size extra_memory
  else s

/-- The scan of source line 127: walk the map in increasing key order
and stop at the first key that is at least sz and has a non-empty
stack, returning that key and the stack top. -/
def find_fit (sz : Nat) : List (Nat × List Nat) → Option (Nat × Nat)
  | [] => none
  | (k, st) :: rest =>
    if sz ≤ k then
      match st with
      | [] => find_fit sz rest
      | a :: _ => some (k, a)
    else find_fit sz rest

/-- Source line 125: pop the found stack, split off any profitable
extra memory, and return the chunk-header address. -/
def allocate_from_free_pool (s : AllocState) (sz : Nat) : Option Nat × AllocState :=
  match find_fit sz s.free_pool with
  | none => (none, s)
  | some (k, ptr) =>
    let s1 := { s with free_pool := poolPopAt s.free_pool k }
    (some ptr, free_extra_memory s1 ptr sz k)

/-- The loop body of source line 142, with fuel for termination. The
loop reads the successor headers from memory and accumulates into the
header being freed; it breaks when the freed header itself is marked
used or when the chain hits null. -/
def merge_go (hs : List (Nat × chunk_header)) :
    Nat → chunk_header → Nat → chunk_header
  | 0, hdr, _ => hdr
  | fuel + 1, hdr, current_addr =>
    if current_addr = 0 then hdr
    else if hdr.used then hdr
    else
      let current := getHeader hs current_addr
      merge_go hs fuel
        { hdr with
          size := (hdr.size + current.size + ALIGNED_HEADER_SIZE) % SIZE_MOD
          next_chunk := current.next_chunk }
        current.next_chunk

/-- Source line 142: merge, writing the accumulated header back at
hdr_addr. The fuel bound headers.length + 1 covers every chain the
source terminates on. -/
def merge_contiguous_free_chunks (s : AllocState) (hdr_addr : Nat) : AllocState :=
  let hdr := getHeader s.headers hdr_addr
  let merged := merge_go s.headers (s.headers.length + 1) hdr hdr.next_chunk
  { s with headers := setHeader s.headers hdr_addr merged }

/-- The three MEMORY BUG reports of m61_free, in source order. -/
inductive FreeError where
  | outOfBounds
  | doubleFree
  | notAllocated
  deriving DecidableEq

/-- Result of m61_free: normal return, or exit(EXIT_FAILURE) with the
given report, carrying the state at the moment of termination. -/
inductive FreeResult where
  | ok (s : AllocState)
  | fatal (e : FreeError) (s : AllocState)
  deriving DecidableEq

def FreeResult.state : FreeResult → AllocState
  | .ok s => s
  | .fatal _ s => s

def FreeResult.isOk : FreeResult → Bool
  | .ok _ => true
  | .fatal _ _ => false

/-- Source line 230: m61_free. -/
def m61_free (s : AllocState) (ptr : Nat) : FreeResult :=
  if ptr = 0 then .ok s
  else if ptr < BASE + ALIGNED_HEADER_SIZE ∨ BASE + BUFFER_SIZE < ptr then
    .fatal .outOfBounds s
  else if ptr ∉ s.current_allocation then
    if ptr ∈ s.freed_allocations then .fatal .doubleFree s
    else .fatal .notAllocated s
  else
    let hdr_addr := ptr - ALIGNED_HEADER_SIZE
    let hdr := getHeader s.headers hdr_addr
    let s1 := { s with stats := s.stats.update_free ptr hdr.size }
    let s2 := merge_contiguous_free_chunks s1 hdr_addr
    let merged := getHeader s2.headers hdr_addr
    let s3 := { s2 with headers := setHeader s2.headers hdr_addr { merged with used := false } }
    let final := getHeader s3.headers hdr_addr
    .ok { s3 with
          free_pool := poolPush s3.free_pool final.size hdr_addr
          freed_allocations := insertSet s3.freed_allocations ptr }

/-- Source line 186: m61_malloc. -/
def m61_malloc (s : AllocState) (sz : Nat) : Option Nat × AllocState :=
  let aligned_chunk_size := offset_to_next_aligned_size sz
  let total_size := (aligned_chunk_size + ALIGNED_HEADER_SIZE) % SIZE_MOD
  if is_add_wraparound total_size sz then
    (none, { s with stats := s.stats.update_failed_allocation sz })
  else if check_if_available_in_default_buffer s.pos BUFFER_SIZE total_size = false then
    match allocate_from_free_pool s sz with
    | (some ptr, s1) =>
      let payload_ptr := ptr + ALIGNED_HEADER_SIZE
      (some payload_ptr,
        { s1 with
          stats := s1.stats.update_successful_allocation ptr sz total_size
          current_allocation := insertSet s1.current_allocation payload_ptr
          freed_allocations := eraseSet s1.freed_allocations payload_ptr })
    | (none, s1) =>
      (none, { s1 with stats := s1.stats.update_failed_allocation sz })
  else
    let ptr := BASE + s.pos
    let pos2 := (s.pos + total_size) % SIZE_MOD
    let hs1 := setHeader s.headers ptr ⟨sz, true, BASE + pos2⟩
    let hs2 := setHeader hs1 (BASE + pos2) ⟨usub BUFFER_SIZE pos2, false, 0⟩
    let payload_ptr := ptr + ALIGNED_HEADER_SIZE
    (some payload_ptr,
      { s with
        pos := pos2
        headers := hs2
        current_allocation := insertSet s.current_allocation payload_ptr
        stats := s.stats.update_successful_allocation ptr sz total_size })

/-- Source line 268: m61_calloc. -/
def m61_calloc (s : AllocState) (count sz : Nat) : Option Nat × AllocState :=
  if count = 0 ∨ sz = 0 ∨ (sz ≠ 0 ∧ (count * sz) % SIZE_MOD / sz ≠ count) then
    (none, { s with stats := s.stats.update_failed_allocation sz })
  else m61_malloc s ((count * sz) % SIZE_MOD)

/-- Modelled from the spec: the initial statistics. m61_statistics is
declared in m61.hh, which is not part of src/; default_stats has static
storage duration (source line 60), and the statistics are the running
counters of spec section 3, so every counter starts at zero. -/
def init_stats : m61_statistics :=
  ⟨0, 0, 0, 0, 0, 0, 0, 0⟩

/-- The process-start state: cursor 0 (source line 49), no headers
written, empty pool and tracker sets, zeroed counters. -/
def init_state : AllocState :=
  ⟨0, [], [], [], [], init_stats⟩

/-- State after m61_malloc(16) on the fresh arena; the returned payload
pointer is BASE + 48. -/
def state_after_alloc16 : AllocState :=
  (m61_malloc init_state 16).2

/-- State after then freeing that pointer once (a valid free). -/
def state_after_free1 : AllocState :=
  (m61_free state_after_alloc16 (BASE + 48)).state

/-- State after a second m61_malloc(16): two adjacent used chunks at
BASE and BASE + 64, payload pointers BASE + 48 and BASE + 112. -/
def c2_state_two_chunks : AllocState :=
  (m61_malloc state_after_alloc16 16).2

/-- State after freeing the second chunk (payload BASE + 112). -/
def c2_state_freed_second : AllocState :=
  (m61_free c2_state_two_chunks (BASE + 112)).state

/-- State after then freeing the first chunk (payload BASE + 48), whose
header at BASE is immediately followed via next by the free chunk at
BASE + 64. -/
def c2_state_freed_first : AllocState :=
  (m61_free c2_state_freed_second (BASE + 48)).state

/-- Sum of the payload sizes recorded in the chunk headers of the
pointers currently in the live set. -/
def sum_live_payload_sizes (s : AllocState) : Nat :=
  (s.current_allocation.map
    (fun p => (getHeader s.headers (p - ALIGNED_HEADER_SIZE)).size)).sum

/-- The claim C9 describes best_fit_remove with: scan keys in increasing
order; return and remove the most-recently-pushed address from the first
non-empty pool whose key is at least the requested size; if none, return
not found. This definition follows those words over the key-sorted pool
list: it yields the found key, the returned address (stack top) and the
remaining stack. -/
def best_fit_remove_spec (sz : Nat) : List (Nat × List Nat) → Option (Nat × Nat × List Nat)
  | [] => none
  | (_, []) :: rest => best_fit_remove_spec sz rest
  | (k, a :: tl) :: rest =>
    if sz ≤ k then some (k, a, tl) else best_fit_remove_spec sz rest

/-! Helper lemmas (shared). -/

theorem usub_of_le (a b : Nat) (hba : b ≤ a) (ha : a < SIZE_MOD) :
    usub a b = a - b := by
  have hb : b < SIZE_MOD := lt_of_le_of_lt hba ha
  unfold usub
  rw [Nat.mod_eq_of_lt ha, Nat.mod_eq_of_lt hb]
  have h1 : a + (SIZE_MOD - b) = (a - b) + SIZE_MOD := by omega
  rw [h1, Nat.add_mod_right, Nat.mod_eq_of_lt (by omega)]

theorem usub_of_lt (a b : Nat) (hab : a < b) (hb : b < SIZE_MOD) :
    usub a b = a + SIZE_MOD - b := by
  have ha : a < SIZE_MOD := lt_trans hab hb
  unfold usub
  rw [Nat.mod_eq_of_lt ha, Nat.mod_eq_of_lt hb,
    Nat.mod_eq_of_lt (show a + (SIZE_MOD - b) < SIZE_MOD by omega)]
  omega

theorem best_fit_remove_spec_mem (sz : Nat) (ps : List (Nat × List Nat))
    (k a : Nat) (tl : List Nat)
    (h : best_fit_remove_spec sz ps = some (k, a, tl)) :
    (k, a :: tl) ∈ ps ∧ sz ≤ k := by
  induction ps with
  | nil => simp [best_fit_remove_spec] at h
  | cons hd rest ih =>
    obtain ⟨k1, st1⟩ := hd
    cases st1 with
    | nil =>
      have h2 : best_fit_remove_spec sz rest = some (k, a, tl) := h
      exact ⟨List.mem_cons_of_mem _ (ih h2).1, (ih h2).2⟩
    | cons a1 tl1 =>
      by_cases hk : sz ≤ k1
      · have h2 : (if sz ≤ k1 then some (k1, a1, tl1)
            else best_fit_remove_spec sz rest) = some (k, a, tl) := h
        rw [if_pos hk] at h2
        simp only [Option.some.injEq, Prod.mk.injEq, List.cons.injEq] at h2
        obtain ⟨hk1, ha1, htl1⟩ := h2
        subst hk1; subst ha1; subst htl1
        exact ⟨List.mem_cons_self _ _, hk⟩
      · have h2 : (if sz ≤ k1 then some (k1, a1, tl1)
            else best_fit_remove_spec sz rest) = some (k, a, tl) := h
        rw [if_neg hk] at h2
        exact ⟨List.mem_cons_of_mem _ (ih h2).1, (ih h2).2⟩

theorem find_fit_of_spec_none (sz : Nat) (ps : List (Nat × List Nat))
    (h : best_fit_remove_spec sz ps = none) : find_fit sz ps = none := by
  induction ps with
  | nil => rfl
  | cons hd rest ih =>
    obtain ⟨k1, st1⟩ := hd
    cases st1 with
    | nil =>
      have h2 : best_fit_remove_spec sz rest = none := h
      show (if sz ≤ k1 then find_fit sz rest else find_fit sz rest) = none
      rw [ite_self]
      exact ih h2
    | cons a1 tl1 =>
      by_cases hk : sz ≤ k1
      · have h2 : (if sz ≤ k1 then some (k1, a1, tl1)
            else best_fit_remove_spec sz rest) = none := h
        rw [if_pos hk] at h2
        exact absurd h2 (by simp)
      · have h2 : (if sz ≤ k1 then some (k1, a1, tl1)
            else best_fit_remove_spec sz rest) = none := h
        rw [if_neg hk] at h2
        show (if sz ≤ k1 then match a1 :: tl1 with
            | [] => find_fit sz rest
            | a :: _ => some (k1, a) else find_fit sz rest) = none
        rw [if_neg hk]
        exact ih h2

theorem find_fit_of_spec_some (sz : Nat) (ps : List (Nat × List Nat))
    (k a : Nat) (tl : List Nat)
    (h : best_fit_remove_spec sz ps = some (k, a, tl)) :
    find_fit sz ps = some (k, a) := by
  induction ps with
  | nil => simp [best_fit_remove_spec] at h
  | cons hd rest ih =>
    obtain ⟨k1, st1⟩ := hd
    cases st1 with
    | nil =>
      have h2 : best_fit_remove_spec sz rest = some (k, a, tl) := h
      show (if sz ≤ k1 then find_fit sz rest else find_fit sz rest) = some (k, a)
      rw [ite_self]
      exact ih h2
    | cons a1 tl1 =>
      show (if sz ≤ k1 then some (k1, a1) else find_fit sz rest) = some (k, a)
      by_cases hk : sz ≤ k1
      · have h2 : (if sz ≤ k1 then some (k1, a1, tl1)
            else best_fit_remove_spec sz rest) = some (k, a, tl) := h
        rw [if_pos hk] at h2
        simp only [Option.some.injEq, Prod.mk.injEq] at h2
        rw [if_pos hk, h2.1, h2.2.1]
      · have h2 : (if sz ≤ k1 then some (k1, a1, tl1)
            else best_fit_remove_spec sz rest) = some (k, a, tl) := h
        rw [if_neg hk] at h2
        rw [if_neg hk]
        exact ih h2

theorem poolPopAt_lookup (sz : Nat) (ps : List (Nat × List Nat))
    (k a : Nat) (tl : List Nat)
    (hp : ps.Pairwise (fun x y => x.1 < y.1))
    (h : best_fit_remove_spec sz ps = some (k, a, tl)) :
    poolLookup (poolPopAt ps k) k = tl := by
  induction ps with
  | nil => simp [best_fit_remove_spec] at h
  | cons hd rest ih =>
    obtain ⟨k1, st1⟩ := hd
    have hp1 := (List.pairwise_cons.mp hp).1
    have hp2 := (List.pairwise_cons.mp hp).2
    cases st1 with
    | nil =>
      have h2 : best_fit_remove_spec sz rest = some (k, a, tl) := h
      have hk1k : k1 < k := hp1 (k, a :: tl) (best_fit_remove_spec_mem sz rest k a tl h2).1
      have hne : k ≠ k1 := ne_of_gt hk1k
      show poolLookup (if k = k1 then (k1, List.tail []) :: rest
          else (k1, ([] : List Nat)) :: poolPopAt rest k) k = tl
      rw [if_neg hne]
      show ((if k = k1 then some ([] : List Nat) else poolFind (poolPopAt rest k) k).getD []) = tl
      rw [if_neg hne]
      exact ih hp2 h2
    | cons a1 tl1 =>
      by_cases hk : sz ≤ k1
      · have h2 : (if sz ≤ k1 then some (k1, a1, tl1)
            else best_fit_remove_spec sz rest) = some (k, a, tl) := h
        rw [if_pos hk] at h2
        simp only [Option.some.injEq, Prod.mk.injEq] at h2
        obtain ⟨hk1, _, htl1⟩ := h2
        subst hk1; subst htl1
        show poolLookup (if k1 = k1 then (k1, List.tail (a1 :: tl1)) :: rest
            else (k1, a1 :: tl1) :: poolPopAt rest k1) k1 = tl1
        rw [if_pos rfl]
        show ((if k1 = k1 then some (List.tail (a1 :: tl1))
            else poolFind rest k1).getD []) = tl1
        rw [if_pos rfl]
        rfl
      · have h2 : (if sz ≤ k1 then some (k1, a1, tl1)
            else best_fit_remove_spec sz rest) = some (k, a, tl) := h
        rw [if_neg hk] at h2
        have hk1k : k1 < k := hp1 (k, a :: tl) (best_fit_remove_spec_mem sz rest k a tl h2).1
        have hne : k ≠ k1 := ne_of_gt hk1k
        show poolLookup (if k = k1 then (k1, List.tail (a1 :: tl1)) :: rest
            else (k1, a1 :: tl1) :: poolPopAt rest k) k = tl
        rw [if_neg hne]
        show ((if k = k1 then some (a1 :: tl1) else poolFind (poolPopAt rest k) k).getD []) = tl
        rw [if_neg hne]
        exact ih hp2 h2

theorem poolPush_lookup_ne (ps : List (Nat × List Nat)) (k2 a k : Nat)
    (hne : k ≠ k2) :
    poolLookup (poolPush ps k2 a) k = poolLookup ps k := by
  induction ps with
  | nil =>
    show ((if k = k2 then some [a] else poolFind [] k).getD []) = poolLookup [] k
    rw [if_neg hne]
    rfl
  | cons hd rest ih =>
    obtain ⟨k1, st⟩ := hd
    show poolLookup (if k2 < k1 then (k2, [a]) :: (k1, st) :: rest
        else if k2 = k1 then (k1, a :: st) :: rest
        else (k1, st) :: poolPush rest k2 a) k = poolLookup ((k1, st) :: rest) k
    by_cases h1 : k2 < k1
    · rw [if_pos h1]
      show ((if k = k2 then some [a] else poolFind ((k1, st) :: rest) k).getD []) =
        poolLookup ((k1, st) :: rest) k
      rw [if_neg hne]
      rfl
    · rw [if_neg h1]
      by_cases h2 : k2 = k1
      · rw [if_pos h2]
        subst h2
        show ((if k = k2 then some (a :: st) else poolFind rest k).getD []) =
          ((if k = k2 then some st else poolFind rest k).getD [])
        rw [if_neg hne, if_neg hne]
      · rw [if_neg h2]
        by_cases h3 : k = k1
        · show ((if k = k1 then some st else poolFind (poolPush rest k2 a) k).getD []) =
            ((if k = k1 then some st else poolFind rest k).getD [])
          rw [if_pos h3, if_pos h3]
        · show ((if k = k1 then some st else poolFind (poolPush rest k2 a) k).getD []) =
            ((if k = k1 then some st else poolFind rest k).getD [])
          rw [if_neg h3, if_neg h3]
          exact ih

set_option maxRecDepth 4000

/-- Unfolding equation for free_extra_memory, with the local variable
substituted. -/
theorem free_extra_memory_eq (s : AllocState) (ptr requested_size available_size : Nat) :
    free_extra_memory s ptr requested_size available_size =
      (if 0 < usub (usub available_size requested_size) (2 * CHUNK_HEADER_SIZE) ∧
          usub (usub available_size requested_size) (2 * CHUNK_HEADER_SIZE) < 2 ^ 63 then
        split_current_chunk s ptr requested_size
          (usub (usub available_size requested_size) (2 * CHUNK_HEADER_SIZE))
      else s) := rfl

/-- The free_pool component written by split_current_chunk. -/
theorem split_current_chunk_free_pool (s : AllocState) (ptr requested_size extra_memory : Nat) :
    (split_current_chunk s ptr requested_size extra_memory).free_pool =
      poolPush s.free_pool extra_memory (ptr + requested_size + CHUNK_HEADER_SIZE) := rfl

/-- When the requested size fits in the found pool key without room for
another header and payload, or with room, the splitting step never
touches the pool entry of the found key itself: any split pushes under
the strictly smaller leftover key. -/
theorem free_extra_memory_pool (s : AllocState) (ptr sz k : Nat)
    (hsk : sz ≤ k) (hkW : k < SIZE_MOD) :
    poolLookup (free_extra_memory s ptr sz k).free_pool k = poolLookup s.free_pool k := by
  rw [free_extra_memory_eq]
  by_cases hcond : 0 < usub (usub k sz) (2 * CHUNK_HEADER_SIZE) ∧
      usub (usub k sz) (2 * CHUNK_HEADER_SIZE) < 2 ^ 63
  · rw [if_pos hcond]
    have hksz : usub k sz = k - sz := usub_of_le k sz hsk hkW
    have hne : k ≠ usub (usub k sz) (2 * CHUNK_HEADER_SIZE) := by
      rw [hksz] at hcond ⊢
      by_cases h80 : 2 * CHUNK_HEADER_SIZE ≤ k - sz
      · rw [usub_of_le _ _ h80 (lt_of_le_of_lt (Nat.sub_le k sz) hkW)] at hcond ⊢
        have hC : 0 < 2 * CHUNK_HEADER_SIZE := by decide
        omega
      · push_neg at h80
        rw [usub_of_lt _ _ h80 (by decide)] at hcond
        have hbig : 2 ^ 63 + 2 * CHUNK_HEADER_SIZE < SIZE_MOD := by decide
        omega
    rw [split_current_chunk_free_pool]
    exact poolPush_lookup_ne s.free_pool _ _ k hne
  · rw [if_neg hcond]

/-! Claim theorems. -/

/-- C1: the claim states that a second release of the same pointer
terminates fatally with a DoubleFree report. Counter-evaluation: after
m61_malloc(16) the payload pointer BASE + 48 is released twice; both
calls return normally (the second is not fatal), because m61_free never
removes the pointer from the live set, so the double-free branch cannot
be reached. -/
theorem c1_double_free_not_fatal :
    (m61_free state_after_alloc16 (BASE + 48)).isOk = true ∧
    (m61_free state_after_free1 (BASE + 48)).isOk = true := by
  decide

/-- C2: the claim states that a valid release whose chunk is followed
via next by a free chunk absorbs it (payload_size grows by the absorbed
payload plus one header size, next is adopted). Counter-evaluation:
allocate two adjacent 16-byte chunks at BASE and BASE + 64, free the
second, then free the first. At that release the header at BASE is
followed via next by the free chunk at BASE + 64, yet its size stays 16
(the claim requires 16 + 16 + 48 = 80) and its next pointer is kept:
merge_contiguous_free_chunks tests the freed header's own used flag,
which is still true when m61_free calls it, so the loop breaks at once. -/
theorem c2_no_coalescing_on_free :
    (getHeader c2_state_freed_first.headers BASE).used = false ∧
    (getHeader c2_state_freed_first.headers BASE).next_chunk = BASE + 64 ∧
    (getHeader c2_state_freed_first.headers (BASE + 64)).used = false ∧
    (getHeader c2_state_freed_first.headers BASE).size = 16 := by
  decide

/-- C3: the claim states that the aligned payload size is a multiple of
the platform's maximum scalar alignment and at least sz. At sz = 17 the
code computes 17 + 17 mod 16 = 18, which is not a multiple of 16: the
function adds size mod 16 instead of rounding up to the next multiple. -/
theorem c3_aligned_size_not_aligned_at_17 :
    offset_to_next_aligned_size 17 = 18 ∧
    ¬ MAX_ALIGN ∣ offset_to_next_aligned_size 17 ∧
    MAX_ALIGN ∣ ALIGNED_HEADER_SIZE := by
  decide

/-- C4: the claim states that live and freed stay disjoint and that
release moves the pointer out of live. Counter-evaluation: after
m61_malloc(16) and one valid m61_free, the payload pointer BASE + 48 is
a member of both tracking sets, because m61_free inserts it into
freed_allocations without erasing it from current_allocation. -/
theorem c4_live_freed_not_disjoint :
    BASE + 48 ∈ state_after_free1.current_allocation ∧
    BASE + 48 ∈ state_after_free1.freed_allocations := by
  decide

/-- C5: the claim states that active_size always equals the sum of the
payload sizes of the pointers in the live set. Counter-evaluation: after
m61_malloc(16) and one valid m61_free, active_size is back to 0 but the
live set still holds BASE + 48 whose header records payload size 16. -/
theorem c5_active_bytes_mismatch :
    state_after_free1.stats.active_size = 0 ∧
    sum_live_payload_sizes state_after_free1 = 16 := by
  decide

/-- C6 counterexample: the claim includes p = arena.base + arena.size in
the out-of-bounds fatal interval, but the source bounds test is
ptr > buffer + size, so that pointer passes the bounds check and is
classified by the tracker instead: on the fresh state it terminates
fatally with the NeverAllocated report, not the OutOfBounds one. -/
theorem c6_end_pointer_not_out_of_bounds :
    m61_free init_state (BASE + BUFFER_SIZE) =
      .fatal .notAllocated init_state ∧
    m61_free init_state (BASE + BUFFER_SIZE) ≠
      .fatal .outOfBounds init_state := by
  decide

/-- C6 amended: for every non-null pointer strictly below
BASE + ALIGNED_HEADER_SIZE or strictly above BASE + BUFFER_SIZE,
m61_free terminates fatally with the OutOfBounds report and returns the
state unchanged (no chain mutation); the exact end address
BASE + BUFFER_SIZE is not part of this interval. -/
theorem c6_out_of_bounds_free_fatal (s : AllocState) (p : Nat)
    (h0 : p ≠ 0)
    (hb : p < BASE + ALIGNED_HEADER_SIZE ∨ BASE + BUFFER_SIZE < p) :
    m61_free s p = .fatal .outOfBounds s := by
  unfold m61_free
  rw [if_neg h0, if_pos hb]

theorem c6_out_of_bounds_free_fatal_witness :
    (1 : Nat) ≠ 0 ∧
    ((1 : Nat) < BASE + ALIGNED_HEADER_SIZE ∨ BASE + BUFFER_SIZE < 1) ∧
    m61_free init_state 1 = .fatal .outOfBounds init_state :=
  ⟨by decide, Or.inl (by decide),
    c6_out_of_bounds_free_fatal init_state 1 (by decide) (Or.inl (by decide))⟩

/-- C7: when count times element_size overflows size_t (the product is
at least 2^64), m61_calloc returns null and leaves the arena cursor
unchanged: the guard total_size / sz != count always fires on a true
overflow, and the function returns before touching the buffer. -/
theorem c7_calloc_overflow_returns_null (s : AllocState) (count sz : Nat)
    (h : SIZE_MOD ≤ count * sz) :
    (m61_calloc s count sz).1 = none ∧
    (m61_calloc s count sz).2.pos = s.pos := by
  have hsz : 0 < sz := by
    rcases Nat.eq_zero_or_pos sz with h0 | h0
    · exfalso; rw [h0, Nat.mul_zero] at h; exact absurd h (by decide)
    · exact h0
  have hmod : (count * sz) % SIZE_MOD < count * sz :=
    lt_of_lt_of_le (Nat.mod_lt _ (by decide)) h
  have hdiv : (count * sz) % SIZE_MOD / sz ≠ count :=
    Nat.ne_of_lt ((Nat.div_lt_iff_lt_mul hsz).mpr hmod)
  have hcond : count = 0 ∨ sz = 0 ∨
      (sz ≠ 0 ∧ (count * sz) % SIZE_MOD / sz ≠ count) :=
    Or.inr (Or.inr ⟨Nat.pos_iff_ne_zero.mp hsz, hdiv⟩)
  unfold m61_calloc
  rw [if_pos hcond]
  exact ⟨rfl, rfl⟩

theorem c7_calloc_overflow_returns_null_witness :
    SIZE_MOD ≤ 2 ^ 32 * 2 ^ 32 ∧
    (m61_calloc init_state (2 ^ 32) (2 ^ 32)).1 = none ∧
    (m61_calloc init_state (2 ^ 32) (2 ^ 32)).2.pos = init_state.pos :=
  ⟨by decide, c7_calloc_overflow_returns_null init_state (2 ^ 32) (2 ^ 32) (by decide)⟩

/-- C8: for every k, allocate_zeroed(0, k) and allocate_zeroed(k, 0)
return null, increment nfail by one, and leave ntotal unchanged: both
zero cases take the immediate failure branch of m61_calloc, which calls
update_failed_allocation and never reaches m61_malloc. -/
theorem c8_calloc_zero_size (s : AllocState) (k : Nat) :
    (m61_calloc s 0 k).1 = none ∧
    (m61_calloc s 0 k).2.stats.nfail = (s.stats.nfail + 1) % SIZE_MOD ∧
    (m61_calloc s 0 k).2.stats.ntotal = s.stats.ntotal ∧
    (m61_calloc s k 0).1 = none ∧
    (m61_calloc s k 0).2.stats.nfail = (s.stats.nfail + 1) % SIZE_MOD ∧
    (m61_calloc s k 0).2.stats.ntotal = s.stats.ntotal := by
  simp [m61_calloc, m61_statistics.update_failed_allocation]

/-- C9: allocate_from_free_pool realizes the claim's description of
best_fit_remove: scanning the key-sorted pool map in increasing order,
it returns the most-recently-pushed (top) address of the first
non-empty pool whose key is at least the requested size, and removes it
from that pool; when no such pool exists it returns none and leaves the
state untouched. Hypotheses: the pool map is strictly sorted by key and
its keys are size_t values, the std::map invariants. -/
theorem c9_best_fit_remove (s : AllocState) (sz : Nat)
    (hsorted : s.free_pool.Pairwise (fun x y => x.1 < y.1))
    (hkeys : ∀ kv ∈ s.free_pool, kv.1 < SIZE_MOD) :
    match best_fit_remove_spec sz s.free_pool with
    | none => allocate_from_free_pool s sz = (none, s)
    | some (k, a, tl) =>
        (allocate_from_free_pool s sz).1 = some a ∧
        poolLookup (allocate_from_free_pool s sz).2.free_pool k = tl := by
  cases hspec : best_fit_remove_spec sz s.free_pool with
  | none =>
    show allocate_from_free_pool s sz = (none, s)
    unfold allocate_from_free_pool
    rw [find_fit_of_spec_none sz s.free_pool hspec]
  | some x =>
    obtain ⟨k, a, tl⟩ := x
    obtain ⟨hmem, hsk⟩ := best_fit_remove_spec_mem sz s.free_pool k a tl hspec
    have hkW : k < SIZE_MOD := hkeys (k, a :: tl) hmem
    have hff := find_fit_of_spec_some sz s.free_pool k a tl hspec
    have hpop := poolPopAt_lookup sz s.free_pool k a tl hsorted hspec
    show (allocate_from_free_pool s sz).1 = some a ∧
      poolLookup (allocate_from_free_pool s sz).2.free_pool k = tl
    unfold allocate_from_free_pool
    rw [hff]
    refine ⟨rfl, ?_⟩
    show poolLookup
      (free_extra_memory { s with free_pool := poolPopAt s.free_pool k } a sz k).free_pool
      k = tl
    rw [free_extra_memory_pool _ _ _ _ hsk hkW]
    exact hpop

theorem c9_best_fit_remove_witness :
    state_after_free1.free_pool.Pairwise (fun x y => x.1 < y.1) ∧
    (∀ kv ∈ state_after_free1.free_pool, kv.1 < SIZE_MOD) ∧
    (match best_fit_remove_spec 10 state_after_free1.free_pool with
     | none => allocate_from_free_pool state_after_free1 10 = (none, state_after_free1)
     | some (k, a, tl) =>
         (allocate_from_free_pool state_after_free1 10).1 = some a ∧
         poolLookup (allocate_from_free_pool state_after_free1 10).2.free_pool k = tl) :=
  ⟨by decide, by decide,
    c9_best_fit_remove state_after_free1 10 (by decide) (by decide)⟩

/-- C10: the claim states that after a successful tail carve the
sentinel header at the new cursor lies entirely within the arena.
Counter-evaluation: m61_malloc(8388560) on the fresh arena succeeds
(aligned payload 8388560 plus aligned header 48 equal the full 8 MiB),
leaves the cursor at BUFFER_SIZE, and writes the sentinel header at
BASE + BUFFER_SIZE, whose 40 bytes lie wholly beyond the arena. -/
theorem c10_sentinel_written_past_arena_end :
    (m61_malloc init_state 8388560).1 = some (BASE + 48) ∧
    (m61_malloc init_state 8388560).2.pos = BUFFER_SIZE ∧
    BUFFER_SIZE < (m61_malloc init_state 8388560).2.pos + CHUNK_HEADER_SIZE ∧
    lookupHeader (m61_malloc init_state 8388560).2.headers (BASE + BUFFER_SIZE) =
      some ⟨0, false, 0⟩ := by
  decide
